import Mathlib

/-!
Verification of the FeatherClock firmware (smittytone/FeatherClock).

This file gives a shallow embedding, in Lean 4, of the parts of the
MicroPython sources that the specification's claims are about:

* `bcd` — the binary-coded-decimal packer shared by
  `clock_segment_esp32.py` and `clock_matrix_esp32.py`;
* `HT16K33.map_word`, `HT16K33.render_segment`, `HT16K33.set_brightness`
  — the generic HT16K33 driver (`_map_word`, `_render`, `set_brightness`);
* `HT16K33Segment.set_glyph` / `set_number` / `set_character` — the
  7-segment display mutators;
* `HT16K33MatrixFeatherWing.get_row` / `set_icon` / `set_character` /
  `plot` / `is_set` — the 16x8 matrix display operations;
* `set_prefs` / `default_prefs` — the preferences merge logic;
* `bst_check` (current sources) and `bst_check_old` (the 1.0.x
  `clock.py`) together with `day_of_week` — the BST calendar check.

Buffers are modelled as `List Nat` of byte values; machine bytes are plain
naturals masked with `&&& 0xFF` exactly where the source masks them.
Fallible operations (the source's `assert` statements) are modelled with
`Except String`, carrying the assertion message from the source; a Python
`assert` raises before any buffer write, so an `Except.error` result
corresponds to the buffer being left untouched.
-/

/-! ### Binary-coded decimal (`bcd`, identical in both esp32 sources) -/

/-- One iteration of the `bcd` loop body for `i < 7`: shift left once, then
apply the two add-3 corrections (`+ 0x300` when nibble 2 exceeds 4,
`+ 0x3000` when nibble 3 exceeds 4, tested sequentially as in the source). -/
def bcd_step (v : Nat) : Nat :=
  let v := v <<< 1
  let v := if 0x4FF < (v &&& 0xF00) then v + 0x300 else v
  if 0x4FFF < (v &&& 0xF000) then v + 0x3000 else v

/-- `bcd` from `clock_segment_esp32.py` / `clock_matrix_esp32.py`:
the loop runs `i = 0..7`; on `i = 7` it breaks immediately after the
shift, so the body with corrections runs seven times followed by one
bare shift; the result is `(value >> 8) & 0xFF`. -/
def bcd (bin_value : Nat) : Nat :=
  ((bcd_step^[7] bin_value) <<< 1 >>> 8) &&& 0xFF

/-! ### Brightness (`HT16K33.set_brightness`) -/

def HT16K33_GENERIC_CMD_BRIGHTNESS : Nat := 0xE0

/-- `HT16K33.set_brightness`: an out-of-range argument is replaced by 15;
the result models the pair (stored `self.brightness`, command byte written
by `_write_cmd`, namely `HT16K33_GENERIC_CMD_BRIGHTNESS | brightness`).
The argument is an `Int` so that negative inputs are representable; after
clamping the value is in `[0, 15]`, so `Int.toNat` is exact. -/
def set_brightness (brightness : Int) : Int × Nat :=
  let b := if brightness < 0 ∨ brightness > 15 then (15 : Int) else brightness
  (b, HT16K33_GENERIC_CMD_BRIGHTNESS ||| b.toNat)

/-! ### The BST calendar check (`bst_check`, `day_of_week`) -/

/-- `day_of_week` (identical text in `clock.py` and the current sources):
Zeller's rule.  `int(str(year)[:2])` and `int(str(year)[2:])` are modelled
as `year / 100` and `year % 100`, which is exact for the four-digit years
the clock handles; Python's `int(x / y)` truncation toward zero is
modelled by `Int.tdiv` (the `year3` operand can be `-1`); Python's `%`
on a positive modulus agrees with `Int.emod`, Lean's `%`. -/
def day_of_week (day month year : Int) : Int :=
  let month := month - 2
  let month := if month < 1 then month + 12 else month
  let century := year / 100
  let year2 := year % 100
  let year3 := if month > 10 then year2 - 1 else year2
  let dow := day + Int.tdiv (13 * month - 1) 5 + year3
      + Int.tdiv year3 4 + Int.tdiv century 4 - 2 * century
  let dow := dow % 7
  if dow < 0 then dow + 7 else dow

/-- The candidate last-Sunday days `range(31, 24, -1)` of the `bst_check`
loops. -/
def bst_days : List Int := [31, 30, 29, 28, 27, 26, 25]

/-- `bst_check` from the current sources (`clock_segment_esp32.py` and
`clock_matrix_esp32.py`), applied to the fields `now[0]` (year), `now[1]`
(month) and `now[2]` (day of month) of the time tuple that the source
reads.  The two `for ... return True` loops are modelled with
`List.any`. -/
def bst_check (now0 now1 now2 : Int) : Bool :=
  if now1 > 3 ∧ now1 < 10 then true
  else if now1 = 3 ∧ bst_days.any
      (fun index => decide (day_of_week index 3 now0 = 0) && decide (now2 ≥ index)) then true
  else if now1 = 10 ∧ bst_days.any
      (fun index => decide (day_of_week index 10 now0 = 0) && decide (now2 < index)) then true
  else false

/-- `bst_check` from the 1.0.x `clock.py`: identical text except that the
two in-loop day comparisons read `now[3]` (the hour field) instead of
`now[2]`.  The embedding therefore also takes `now3`. -/
def bst_check_old (now0 now1 now2 now3 : Int) : Bool :=
  if now1 > 3 ∧ now1 < 10 then true
  else if now1 = 3 ∧ bst_days.any
      (fun index => decide (day_of_week index 3 now0 = 0) && decide (now3 ≥ index)) then true
  else if now1 = 10 ∧ bst_days.any
      (fun index => decide (day_of_week index 10 now0 = 0) && decide (now3 < index)) then true
  else false

/-- Modelled from the spec: the old `bst_check` as the specification
describes it, namely the later version with the early-return month-range
comparison `n[1] < 10` replaced by `n[2] < 10` (and everything else,
including the in-loop day comparisons on `now[2]`, unchanged).  This is the
comparison definition for the refinement claim C9, written from the spec's
words, not from the source. -/
def bst_check_old_spec (now0 now1 now2 : Int) : Bool :=
  if now1 > 3 ∧ now2 < 10 then true
  else if now1 = 3 ∧ bst_days.any
      (fun index => decide (day_of_week index 3 now0 = 0) && decide (now2 ≥ index)) then true
  else if now1 = 10 ∧ bst_days.any
      (fun index => decide (day_of_week index 10 now0 = 0) && decide (now2 < index)) then true
  else false

/-! ### The HT16K33 row/column mapping (`HT16K33._map_word`) -/

/-- The default 1:1 HT16K33 row-pin-to-LED-column map (`HT16K33.map`). -/
def ID_MAP : List Nat := [0, 1, 2, 3, 4, 5, 6, 7, 8, 9, 10, 11, 12, 13, 14, 15]

/-- `HT16K33._map_word`: for each bit index `i` of the 16-bit word `bb`,
extract bit `i` and OR it into the accumulator shifted to position
`map[i]`. -/
def map_word (map : List Nat) (bb : Nat) : Nat :=
  (List.range 16).foldl
    (fun k i => k ||| (((bb &&& (1 <<< i)) >>> i) <<< map.getD i 0)) 0

/-- Bit `j` of a fold of bitwise-ors is the or of bit `j` of the seed and
of the or-ed terms. -/
theorem foldl_or_testBit (f : Nat → Nat) (l : List Nat) (a j : Nat) :
    (l.foldl (fun k i => k ||| f i) a).testBit j
      = (a.testBit j || l.any fun i => (f i).testBit j) := by
  induction l generalizing a with
  | nil => simp
  | cons x xs ih => simp [List.foldl_cons, ih, Nat.testBit_or, Bool.or_assoc]

/-- Bit `j` of a single `map_word` term: the term contributes exactly bit
`i` of `bb`, placed at position `m`. -/
theorem bit_term_testBit (bb i m j : Nat) :
    (((bb &&& (1 <<< i)) >>> i) <<< m).testBit j
      = (bb.testBit i && decide (m = j)) := by
  rw [Nat.one_shiftLeft, Nat.and_two_pow]
  cases h : bb.testBit i with
  | false => simp
  | true =>
    simp only [Bool.toNat_true, one_mul, Bool.true_and]
    rw [Nat.shiftRight_eq_div_pow, Nat.div_self (Nat.pos_pow_of_pos i (by norm_num)),
      Nat.one_shiftLeft, Nat.testBit_two_pow]

/-- Characterization of `map_word` bit by bit. -/
theorem map_word_testBit (map : List Nat) (bb j : Nat) :
    (map_word map bb).testBit j
      = (List.range 16).any (fun i => bb.testBit i && decide (map.getD i 0 = j)) := by
  unfold map_word
  rw [foldl_or_testBit (fun i => ((bb &&& (1 <<< i)) >>> i) <<< map.getD i 0)]
  simp only [bit_term_testBit, Nat.zero_testBit, Bool.false_or]

/-- Every entry of a permutation of `range 16` read by the driver is below
16. -/
theorem perm_entry_lt (map : List Nat) (h : map.Perm (List.range 16))
    (i : Nat) (hi : i < 16) : map.getD i 0 < 16 := by
  have hl : map.length = 16 := by simpa using h.length_eq
  have hm : map.getD i 0 ∈ map := by
    rw [List.getD_eq_getElem _ _ (by omega)]
    exact List.getElem_mem _
  simpa using List.mem_range.mp (h.mem_iff.mp hm)

/-- Distinct indices of a permutation of `range 16` carry distinct
entries. -/
theorem perm_entry_inj (map : List Nat) (h : map.Perm (List.range 16))
    {i i' : Nat} (hi : i < 16) (hi' : i' < 16) (hne : i ≠ i') :
    map.getD i 0 ≠ map.getD i' 0 := by
  have hl : map.length = 16 := by simpa using h.length_eq
  have hnd : map.Nodup := h.nodup_iff.mpr (List.nodup_range 16)
  rw [List.getD_eq_getElem _ _ (by omega), List.getD_eq_getElem _ _ (by omega)]
  intro he
  exact hne (hnd.getElem_inj_iff.mp he)

/-- For a permutation column map, output bit `map[i]` of `map_word` equals
input bit `i`. -/
theorem map_word_perm_bit (map : List Nat) (h : map.Perm (List.range 16))
    (w i : Nat) (hi : i < 16) :
    (map_word map w).testBit (map.getD i 0) = w.testBit i := by
  rw [map_word_testBit]
  cases hw : w.testBit i with
  | true => exact List.any_eq_true.mpr ⟨i, List.mem_range.mpr hi, by simp [hw]⟩
  | false =>
    apply List.any_eq_false.mpr
    intro x hx
    by_cases hxi : x = i
    · subst hxi; simp [hw]
    · simp only [Bool.and_eq_true, decide_eq_true_eq, not_and]
      intro _
      exact perm_entry_inj map h (List.mem_range.mp hx) hi hxi

/-- When every map entry is below 16, `map_word` has no bits at positions
16 and above. -/
theorem map_word_high_bits (map : List Nat)
    (hents : ∀ i, i < 16 → map.getD i 0 < 16) (w j : Nat) (hj : 16 ≤ j) :
    (map_word map w).testBit j = false := by
  rw [map_word_testBit]
  apply List.any_eq_false.mpr
  intro x hx
  simp only [Bool.and_eq_true, decide_eq_true_eq, not_and]
  intro _
  have := hents x (List.mem_range.mp hx)
  omega

/-- With the default identity map, `map_word` is the identity on 16-bit
words. -/
theorem map_word_id (w : Nat) (hw : w < 2 ^ 16) : map_word ID_MAP w = w := by
  apply Nat.eq_of_testBit_eq
  intro j
  by_cases hj : j < 16
  · have hid : ID_MAP.getD j 0 = j := by interval_cases j <;> rfl
    calc (map_word ID_MAP w).testBit j
        = (map_word ID_MAP w).testBit (ID_MAP.getD j 0) := by rw [hid]
      _ = w.testBit j := map_word_perm_bit ID_MAP (by decide) w j hj
  · rw [map_word_high_bits ID_MAP (by decide) w j (by omega)]
    exact (Nat.testBit_eq_false_of_lt
      (lt_of_lt_of_le hw (Nat.pow_le_pow_right (by norm_num) (by omega)))).symm

/-! ### Claim C2 -/

/-- Claim C2: for every 16-entry column map that is a permutation of
`[0, 15]` and every 16-bit word `w`, output bit `map[i]` of
`map_word map w` equals input bit `i` of `w` for each `i < 16`; with the
identity map `map_word` leaves every 16-bit word unchanged; and with the
map swapping bits 0 and 1, `map_word 0b01 = 0b10`. -/
theorem map_word_bit_permutation :
    (∀ map : List Nat, map.Perm (List.range 16) →
        ∀ w : Nat, w < 2 ^ 16 → ∀ i : Nat, i < 16 →
          (map_word map w).testBit (map.getD i 0) = w.testBit i) ∧
    (∀ w : Nat, w < 2 ^ 16 → map_word ID_MAP w = w) ∧
    map_word [1, 0, 2, 3, 4, 5, 6, 7, 8, 9, 10, 11, 12, 13, 14, 15] 0b01 = 0b10 :=
  ⟨fun map hm w _ i hi => map_word_perm_bit map hm w i hi,
   fun w hw => map_word_id w hw, by decide⟩

/-- Witness for C2: the general bit statement at the swap map with
`w = 1`, `i = 0`, and the identity statement at `w = 5`. -/
theorem map_word_bit_permutation_witness :
    (map_word [1, 0, 2, 3, 4, 5, 6, 7, 8, 9, 10, 11, 12, 13, 14, 15] 1).testBit
        ([1, 0, 2, 3, 4, 5, 6, 7, 8, 9, 10, 11, 12, 13, 14, 15].getD 0 0)
      = (1 : Nat).testBit 0 ∧
    map_word ID_MAP 5 = 5 :=
  ⟨map_word_bit_permutation.1 _ (by decide) 1 (by decide) 0 (by decide),
   map_word_bit_permutation.2.1 5 (by decide)⟩

/-! ### The segment wire format (`HT16K33._render`, 16-byte buffer) -/

/-- `HT16K33._render` for the segment display (16-byte `self.buffer`):
`src_buffer` is a plain copy of `buffer` (the 16-branch of the
`len == 8` test); `tx_buffer` is `bytearray(17)` whose index 0 keeps its
initial `0x00` (the display-address command byte); for each odd `i` in
`1, 3, ..., 15` the mapped word `k` of bytes `i-1` (low) and `i` (high)
is written with its low byte to `tx[i]` and its high byte to
`tx[i + 1]`. -/
def render_segment (map buffer : List Nat) : List Nat :=
  [1, 3, 5, 7, 9, 11, 13, 15].foldl
    (fun tx i =>
      let k := map_word map ((buffer.getD i 0 <<< 8) ||| buffer.getD (i - 1) 0)
      (tx.set i (k &&& 0xFF)).set (i + 1) ((k >>> 8) &&& 0xFF))
    (List.replicate 17 0)

/-- A 16-bit word assembled from a high byte `a` and a low byte
`b < 256` is `a * 256 + b`. -/
theorem or_shl8_eq_add (a b : Nat) (hb : b < 256) :
    (a <<< 8) ||| b = a * 256 + b := by
  have hb' : b < 2 ^ 8 := by norm_num [hb]
  apply Nat.eq_of_testBit_eq
  intro j
  rw [Nat.testBit_or, Nat.testBit_shiftLeft,
    show a * 256 + b = 2 ^ 8 * a + b from by ring,
    Nat.testBit_mul_pow_two_add a hb' j]
  by_cases hj : j < 8
  · simp [hj, show ¬ (j ≥ 8) from by omega]
  · have hbj : b.testBit j = false :=
      Nat.testBit_eq_false_of_lt
        (lt_of_lt_of_le hb' (Nat.pow_le_pow_right (by norm_num) (by omega)))
    simp [hj, show j ≥ 8 from by omega, hbj]

/-- Low byte extraction from an assembled 16-bit word. -/
theorem word_low_byte (a b : Nat) (hb : b < 256) :
    ((a <<< 8) ||| b) &&& 0xFF = b := by
  rw [or_shl8_eq_add a b hb, show (0xFF : Nat) = 2 ^ 8 - 1 from by norm_num,
    Nat.and_pow_two_sub_one_eq_mod]
  omega

/-- High byte extraction from an assembled 16-bit word. -/
theorem word_high_byte (a b : Nat) (ha : a < 256) (hb : b < 256) :
    (((a <<< 8) ||| b) >>> 8) &&& 0xFF = a := by
  rw [or_shl8_eq_add a b hb, Nat.shiftRight_eq_div_pow,
    show a * 256 + b = 2 ^ 8 * a + b from by ring,
    Nat.mul_add_div (by norm_num : 0 < 2 ^ 8),
    show b / 2 ^ 8 = 0 from Nat.div_eq_of_lt (by norm_num [hb]),
    show (0xFF : Nat) = 2 ^ 8 - 1 from by norm_num,
    Nat.and_pow_two_sub_one_eq_mod]
  omega

/-- An assembled 16-bit word of two bytes is below `2 ^ 16`. -/
theorem word_lt (a b : Nat) (ha : a < 256) (hb : b < 256) :
    (a <<< 8) ||| b < 2 ^ 16 := by
  rw [or_shl8_eq_add a b hb]
  omega

/-- `List.set` followed by `List.getD`: the written value is read back
exactly when the write was in range and at the read index. -/
theorem getD_set_ite (l : List Nat) (i j v : Nat) :
    (l.set i v).getD j 0 = if i = j ∧ i < l.length then v else l.getD j 0 := by
  by_cases h1 : i = j
  · subst h1
    by_cases h2 : i < l.length
    · simp [h2, List.getD_eq_getElem?_getD, List.getElem?_set_self h2]
    · rw [List.set_eq_of_length_le (by omega)]
      simp [h2]
  · simp [h1, List.getD_eq_getElem?_getD, List.getElem?_set_ne h1]

/-! ### Claim C3 -/

/-- Claim C3: for the 7-segment display with the default identity column
map, the assembled wire buffer is the 16-byte display buffer prefixed
with a single zero command byte: `wire[0] = 0x00` and
`wire[1 + i] = buffer[i]` for every `i < 16`. -/
theorem render_segment_identity_copy (buffer : List Nat)
    (hlen : buffer.length = 16) (hbytes : ∀ b ∈ buffer, b < 256) :
    (render_segment ID_MAP buffer).getD 0 0 = 0x00 ∧
    ∀ i : Nat, i < 16 →
      (render_segment ID_MAP buffer).getD (1 + i) 0 = buffer.getD i 0 := by
  have hb : ∀ j, j < 16 → buffer.getD j 0 < 256 := fun j hj => by
    rw [List.getD_eq_getElem _ _ (by omega)]
    exact hbytes _ (List.getElem_mem _)
  have hk : ∀ i j, i < 16 → j < 16 →
      map_word ID_MAP ((buffer.getD i 0 <<< 8) ||| buffer.getD j 0)
        = (buffer.getD i 0 <<< 8) ||| buffer.getD j 0 := fun i j hi hj =>
    map_word_id _ (word_lt _ _ (hb i hi) (hb j hj))
  have hlow : ∀ i j, i < 16 → j < 16 →
      map_word ID_MAP ((buffer.getD i 0 <<< 8) ||| buffer.getD j 0) &&& 0xFF
        = buffer.getD j 0 := fun i j hi hj => by
    rw [hk i j hi hj]; exact word_low_byte _ _ (hb j hj)
  have hhigh : ∀ i j, i < 16 → j < 16 →
      (map_word ID_MAP ((buffer.getD i 0 <<< 8) ||| buffer.getD j 0) >>> 8) &&& 0xFF
        = buffer.getD i 0 := fun i j hi hj => by
    rw [hk i j hi hj]; exact word_high_byte _ _ (hb i hi) (hb j hj)
  simp only [render_segment, List.foldl_cons, List.foldl_nil]
  constructor
  · simp [getD_set_ite, List.length_set, List.length_replicate]
  intro i hi
  interval_cases i <;>
    simp only [getD_set_ite, List.length_set, List.length_replicate, Nat.reduceAdd,
      Nat.reduceSub, reduceIte, Nat.reduceEqDiff, true_and, false_and, and_true, and_false,
      if_true, if_false] <;>
    first
      | rfl
      | exact hlow _ _ (by omega) (by omega)
      | exact hhigh _ _ (by omega) (by omega)

/-- Witness for C3 at the concrete buffer `List.range 16`. -/
theorem render_segment_identity_copy_witness :
    (render_segment ID_MAP (List.range 16)).getD 0 0 = 0x00 ∧
    (render_segment ID_MAP (List.range 16)).getD (1 + 3) 0 = (List.range 16).getD 3 0 :=
  ⟨(render_segment_identity_copy (List.range 16) (by decide) (by decide)).1,
   (render_segment_identity_copy (List.range 16) (by decide) (by decide)).2 3 (by decide)⟩

/-! ### The 7-segment mutators (`HT16K33Segment`) -/

/-- `HT16K33Segment.POS`: the buffer offsets of the four digit
positions. -/
def POS : List Nat := [0, 2, 6, 8]

def HT16K33_SEGMENT_MINUS_CHAR : Nat := 0x10
def HT16K33_SEGMENT_DEGREE_CHAR : Nat := 0x11
def HT16K33_SEGMENT_SPACE_CHAR : Nat := 0x12

/-- `HT16K33Segment.CHARSET`: glyphs for 0-9, a-f, minus, degree,
space. -/
def SEG_CHARSET : List Nat :=
  [0x3F, 0x06, 0x5B, 0x4F, 0x66, 0x6D, 0x7D, 0x07, 0x7F, 0x6F,
   0x5F, 0x7C, 0x58, 0x5E, 0x7B, 0x71, 0x40, 0x63, 0x00]

/-- Python's `str.lower()` on one character, for the ASCII range the
clock uses. -/
def py_lower_char (c : Char) : Char :=
  if 65 ≤ c.toNat ∧ c.toNat ≤ 90 then Char.ofNat (c.toNat + 32) else c

/-- Python's `str.lower()` (ASCII model). -/
def py_lower (s : String) : String := String.mk (s.toList.map py_lower_char)

/-- The `char_val` computation of `HT16K33Segment.set_character`: the
lower-cased argument is tested against `"deg"`, `"-"`, `" "`, then
(for a single character, the only case in which Python's substring
test `char in 'abcdef'` is followed by a well-typed `ord(char)`)
against the hex and decimal digit ranges; `0xFF` marks an invalid
character, which the source rejects with an assert. -/
def char_value (ch : String) : Nat :=
  let ch := py_lower ch
  if ch = "deg" then HT16K33_SEGMENT_DEGREE_CHAR
  else if ch = "-" then HT16K33_SEGMENT_MINUS_CHAR
  else if ch = " " then HT16K33_SEGMENT_SPACE_CHAR
  else match ch.toList with
    | [c] =>
      if "abcdef".toList.contains c then c.toNat - 87
      else if "0123456789".toList.contains c then c.toNat - 48
      else 0xFF
    | _ => 0xFF

/-- `HT16K33Segment.set_glyph`: after the digit and glyph asserts, write
the glyph byte at `POS[digit]`, then OR in `0x80` when `has_dot`. -/
def set_glyph (buffer : List Nat) (glyph digit : Nat) (has_dot : Bool) :
    Except String (List Nat) :=
  if ¬ digit < 4 then .error "ERROR - Invalid digit (0-3) set in set_glyph()"
  else if ¬ glyph < 0x80 then .error "ERROR - Invalid glyph (0x00-0x80) set in set_glyph()"
  else
    let b := buffer.set (POS.getD digit 0) glyph
    let b := if has_dot then
        b.set (POS.getD digit 0) ((b.getD (POS.getD digit 0) 0) ||| 0x80)
      else b
    .ok b

/-- `HT16K33Segment.set_character`: after the digit assert, compute
`char_val`, reject `0xFF`, then write `charset[char_val]` at
`POS[digit]` and OR in `0x80` when `has_dot`.  The character set is a
parameter (the class selects `CHARSET` or `CHARSET_UC`). -/
def seg_set_character (buffer charset : List Nat) (ch : String) (digit : Nat)
    (has_dot : Bool) : Except String (List Nat) :=
  if ¬ digit < 4 then .error "ERROR - Invalid digit set in set_character()"
  else if char_value ch = 0xFF then .error "ERROR - Invalid char string set in set_character()"
  else
    let b := buffer.set (POS.getD digit 0) (charset.getD (char_value ch) 0)
    let b := if has_dot then
        b.set (POS.getD digit 0) ((b.getD (POS.getD digit 0) 0) ||| 0x80)
      else b
    .ok b

/-- `HT16K33Segment.set_number`: after the digit and value asserts,
delegate to `set_character` on `str(number)`. -/
def seg_set_number (buffer charset : List Nat) (number digit : Nat)
    (has_dot : Bool) : Except String (List Nat) :=
  if ¬ digit < 4 then .error "ERROR - Invalid digit (0-3) set in set_number()"
  else if ¬ number < 10 then .error "ERROR - Invalid value (0-9) set in set_number()"
  else seg_set_character buffer charset (toString number) digit has_dot

/-- The digit positions all lie inside the 16-byte buffer. -/
theorem pos_lt (d : Nat) (hd : d < 4) : POS.getD d 0 < 16 := by
  interval_cases d <;> decide

/-- The write-then-maybe-dot step shared by the segment mutators: only the
byte at offset `p` changes, and it becomes `v`, or `v ||| 0x80` when the
dot is requested. -/
theorem write_dot_frame (buffer : List Nat) (p v : Nat) (dot : Bool)
    (hp : p < buffer.length) :
    (∀ j, j ≠ p →
      (if dot then
          (buffer.set p v).set p (((buffer.set p v).getD p 0) ||| 0x80)
        else buffer.set p v).getD j 0 = buffer.getD j 0) ∧
    (if dot then
        (buffer.set p v).set p (((buffer.set p v).getD p 0) ||| 0x80)
      else buffer.set p v).getD p 0 = (if dot then v ||| 0x80 else v) := by
  have hv : (buffer.set p v).getD p 0 = v := by
    rw [getD_set_ite, if_pos ⟨rfl, hp⟩]
  cases dot with
  | false =>
    simp only [Bool.false_eq_true, if_false]
    refine ⟨fun j hj => ?_, hv⟩
    rw [getD_set_ite, if_neg (by rintro ⟨h, -⟩; exact hj h.symm)]
  | true =>
    simp only [if_true]
    rw [hv]
    refine ⟨fun j hj => ?_, ?_⟩
    · rw [getD_set_ite, if_neg (by rintro ⟨h, -⟩; exact hj h.symm),
        getD_set_ite, if_neg (by rintro ⟨h, -⟩; exact hj h.symm)]
    · rw [getD_set_ite, if_pos ⟨rfl, by rw [List.length_set]; exact hp⟩]

/-- ORing `0x80` into a 7-bit glyph sets bit 7 and leaves bits 0-6
unchanged. -/
theorem or80_bits (g : Nat) :
    (∀ k, k < 7 → (g ||| 0x80).testBit k = g.testBit k) ∧
    (g ||| 0x80).testBit 7 = true := by
  constructor
  · intro k hk
    rw [Nat.testBit_or, show (0x80 : Nat) = 2 ^ 7 from by norm_num,
      Nat.testBit_two_pow]
    simp [show ¬ (7 = k) from by omega]
  · rw [Nat.testBit_or, show (0x80 : Nat) = 2 ^ 7 from by norm_num,
      Nat.testBit_two_pow_self, Bool.or_true]

/-! ### Claim C4 -/

/-- Claim C4: for every valid digit position and glyph/character, the
segment mutators `set_glyph`, `set_character` and `set_number` change
only the buffer byte at offset `POS[digit]`; the written value is the
glyph (resp. charset entry), and a requested dot ORs `0x80` into that
byte, setting bit 7 without disturbing bits 0-6. -/
theorem segment_mutators_frame :
    (∀ buffer glyph digit dot out, buffer.length = 16 →
        set_glyph buffer glyph digit dot = .ok out →
        (∀ j, j ≠ POS.getD digit 0 → out.getD j 0 = buffer.getD j 0) ∧
        out.getD (POS.getD digit 0) 0 = (if dot then glyph ||| 0x80 else glyph) ∧
        (∀ k, k < 7 → (glyph ||| 0x80).testBit k = glyph.testBit k) ∧
        (glyph ||| 0x80).testBit 7 = true) ∧
    (∀ buffer charset ch digit dot out, buffer.length = 16 →
        seg_set_character buffer charset ch digit dot = .ok out →
        (∀ j, j ≠ POS.getD digit 0 → out.getD j 0 = buffer.getD j 0) ∧
        out.getD (POS.getD digit 0) 0
          = (if dot then charset.getD (char_value ch) 0 ||| 0x80
             else charset.getD (char_value ch) 0) ∧
        (∀ k, k < 7 → (charset.getD (char_value ch) 0 ||| 0x80).testBit k
            = (charset.getD (char_value ch) 0).testBit k) ∧
        (charset.getD (char_value ch) 0 ||| 0x80).testBit 7 = true) ∧
    (∀ buffer charset number digit dot out, buffer.length = 16 →
        seg_set_number buffer charset number digit dot = .ok out →
        (∀ j, j ≠ POS.getD digit 0 → out.getD j 0 = buffer.getD j 0) ∧
        out.getD (POS.getD digit 0) 0
          = (if dot then charset.getD (char_value (toString number)) 0 ||| 0x80
             else charset.getD (char_value (toString number)) 0)) := by
  have hglyph : ∀ buffer glyph digit dot out, buffer.length = 16 →
      set_glyph buffer glyph digit dot = .ok out →
      (∀ j, j ≠ POS.getD digit 0 → out.getD j 0 = buffer.getD j 0) ∧
      out.getD (POS.getD digit 0) 0 = (if dot then glyph ||| 0x80 else glyph) := by
    intro buffer glyph digit dot out hlen hok
    unfold set_glyph at hok
    split at hok
    · exact absurd hok (by simp)
    split at hok
    · exact absurd hok (by simp)
    rename_i hd _
    have hd4 : digit < 4 := not_not.mp hd
    obtain rfl : _ = out := Except.ok.inj hok
    exact write_dot_frame buffer (POS.getD digit 0) glyph dot
      (by rw [hlen]; exact pos_lt digit hd4)
  have hchar : ∀ buffer charset ch digit dot out, buffer.length = 16 →
      seg_set_character buffer charset ch digit dot = .ok out →
      (∀ j, j ≠ POS.getD digit 0 → out.getD j 0 = buffer.getD j 0) ∧
      out.getD (POS.getD digit 0) 0
        = (if dot then charset.getD (char_value ch) 0 ||| 0x80
           else charset.getD (char_value ch) 0) := by
    intro buffer charset ch digit dot out hlen hok
    unfold seg_set_character at hok
    split at hok
    · exact absurd hok (by simp)
    split at hok
    · exact absurd hok (by simp)
    rename_i hd _
    have hd4 : digit < 4 := not_not.mp hd
    obtain rfl : _ = out := Except.ok.inj hok
    exact write_dot_frame buffer (POS.getD digit 0) (charset.getD (char_value ch) 0) dot
      (by rw [hlen]; exact pos_lt digit hd4)
  refine ⟨fun buffer glyph digit dot out hlen hok => ?_,
          fun buffer charset ch digit dot out hlen hok => ?_,
          fun buffer charset number digit dot out hlen hok => ?_⟩
  · obtain ⟨h1, h2⟩ := hglyph buffer glyph digit dot out hlen hok
    exact ⟨h1, h2, (or80_bits glyph).1, (or80_bits glyph).2⟩
  · obtain ⟨h1, h2⟩ := hchar buffer charset ch digit dot out hlen hok
    exact ⟨h1, h2, (or80_bits _).1, (or80_bits _).2⟩
  · unfold seg_set_number at hok
    split at hok
    · exact absurd hok (by simp)
    split at hok
    · exact absurd hok (by simp)
    exact hchar buffer charset (toString number) digit dot out hlen hok

/-- Witness for C4: `set_glyph` with glyph `0x3F` and a dot at digit 1 on
a zeroed buffer, `set_character` of `"7"` at digit 0, and `set_number` of
7 at digit 0. -/
theorem segment_mutators_frame_witness :
    ([0, 0, 0xBF, 0, 0, 0, 0, 0, 0, 0, 0, 0, 0, 0, 0, 0] : List Nat).getD 0 0
        = (List.replicate 16 0).getD 0 0 ∧
    ([0, 0, 0xBF, 0, 0, 0, 0, 0, 0, 0, 0, 0, 0, 0, 0, 0] : List Nat).getD (POS.getD 1 0) 0
        = (if true then 0x3F ||| 0x80 else 0x3F) ∧
    ([0x07, 0, 0, 0, 0, 0, 0, 0, 0, 0, 0, 0, 0, 0, 0, 0] : List Nat).getD (POS.getD 0 0) 0
        = (if false then SEG_CHARSET.getD (char_value "7") 0 ||| 0x80
           else SEG_CHARSET.getD (char_value "7") 0) ∧
    ([0x07, 0, 0, 0, 0, 0, 0, 0, 0, 0, 0, 0, 0, 0, 0, 0] : List Nat).getD (POS.getD 0 0) 0
        = (if false then SEG_CHARSET.getD (char_value (toString 7)) 0 ||| 0x80
           else SEG_CHARSET.getD (char_value (toString 7)) 0) := by
  have h1 := segment_mutators_frame.1 (List.replicate 16 0) 0x3F 1 true
      [0, 0, 0xBF, 0, 0, 0, 0, 0, 0, 0, 0, 0, 0, 0, 0, 0] (by rfl) (by rfl)
  have h2 := segment_mutators_frame.2.1 (List.replicate 16 0) SEG_CHARSET "7" 0 false
      [0x07, 0, 0, 0, 0, 0, 0, 0, 0, 0, 0, 0, 0, 0, 0, 0] (by rfl) (by rfl)
  have h3 := segment_mutators_frame.2.2 (List.replicate 16 0) SEG_CHARSET 7 0 false
      [0x07, 0, 0, 0, 0, 0, 0, 0, 0, 0, 0, 0, 0, 0, 0, 0] (by rfl) (by rfl)
  exact ⟨h1.1 0 (by decide), h1.2.1, h2.2.1, h3.2⟩

/-! ### The 16x8 matrix display (`HT16K33MatrixFeatherWing`) -/

/-- `HT16K33MatrixFeatherWing.width`. -/
def MATRIX_WIDTH : Nat := 16

/-- `HT16K33MatrixFeatherWing.height`. -/
def MATRIX_HEIGHT : Nat := 8

/-- `HT16K33MatrixFeatherWing.CHARSET`: 3-byte glyphs for the digits
0-9 followed by the space glyph. -/
def MATRIX_CHARSET : List (List Nat) :=
  [[0x7C, 0x82, 0x7C],
   [0x42, 0xFE, 0x02],
   [0x4E, 0x92, 0x62],
   [0x44, 0x92, 0x6C],
   [0xF0, 0x08, 0x3E],
   [0x62, 0x92, 0x8E],
   [0x7C, 0x92, 0x0C],
   [0x8E, 0x90, 0xE0],
   [0x6C, 0x92, 0x6C],
   [0x60, 0x92, 0x7C],
   [0x00, 0x00, 0x00]]

/-- `HT16K33MatrixFeatherWing._get_row`: convert a column co-ordinate to
its buffer offset; the source returns `False` (here `none`) for an
out-of-range result. -/
def get_row (x : Nat) : Option Nat :=
  let a := 1 + (x <<< 1)
  let a := if x < 8 then a + 15 else a
  if a ≥ MATRIX_WIDTH * 2 then none else some a

/-- The write loop of `HT16K33MatrixFeatherWing.set_icon`: for each glyph
byte index `i` look up the buffer offset of `column + i`, break when the
offset is out of range, else store the byte (complemented in inverse
video mode; `(~ g) & 0xFF` on a byte equals `(g ^^^ 0xFF) &&& 0xFF`). -/
def set_icon_go (inv : Bool) (column : Nat) :
    List Nat → Nat → List Nat → List Nat
  | buffer, _, [] => buffer
  | buffer, i, g :: rest =>
    match get_row (column + i) with
    | none => buffer
    | some r =>
      set_icon_go inv column
        (buffer.set r (if inv = false then g else (g ^^^ 0xFF) &&& 0xFF))
        (i + 1) rest

/-- `HT16K33MatrixFeatherWing.set_icon`: glyph-length and column asserts,
then the write loop. -/
def set_icon (buffer : List Nat) (inv : Bool) (glyph : List Nat)
    (column : Nat) : Except String (List Nat) :=
  if ¬ (0 < glyph.length ∧ glyph.length ≤ MATRIX_WIDTH * 2) then
    .error "ERROR - Invalid glyph set in set_icon()"
  else if ¬ column < MATRIX_WIDTH then
    .error "ERROR - Invalid column number set in set_icon()"
  else .ok (set_icon_go inv column buffer 0 glyph)

/-- `HT16K33MatrixFeatherWing.set_character`: ascii and column asserts
(the column assert carries the `set_icon()` message, as in the source);
codes below 32 select a user-defined character; otherwise the charset
offset `ascii_value - 32` is used, clamped to 0 when it falls outside
`CHARSET` (the `ascii_value < 0` half of the source's test can not fire
here: the subtraction of values ≥ 32 is a natural number). -/
def mat_set_character (buffer : List Nat) (inv : Bool)
    (def_chars : List (List Nat)) (ascii_value column : Nat) :
    Except String (List Nat) :=
  if ¬ ascii_value < 128 then
    .error "ERROR - Invalid ascii code set in set_character()"
  else if ¬ column < MATRIX_WIDTH then
    .error "ERROR - Invalid column number set in set_icon()"
  else if ascii_value < 32 then
    set_icon buffer inv (def_chars.getD ascii_value []) column
  else
    let av := ascii_value - 32
    let av := if av ≥ MATRIX_CHARSET.length then 0 else av
    set_icon buffer inv (MATRIX_CHARSET.getD av []) column

/-- The pixel test of `HT16K33MatrixFeatherWing.is_set` without the
coordinate assert, as invoked from inside `plot` (where the same
coordinates were already asserted): `bit = (buffer[_get_row x] >> y) & 1`,
returning `True` exactly when the bit is positive.  `_get_row` never
fails for an asserted `x < 16`, so the `none` case is defaulted. -/
def is_set_raw (buffer : List Nat) (x y : Nat) : Bool :=
  let x2 := (get_row x).getD 0
  let bit := ((buffer.getD x2 0) >>> y) &&& 1
  if bit > 0 then true else false

/-- `HT16K33MatrixFeatherWing.is_set`: coordinate assert, then the pixel
test. -/
def is_set (buffer : List Nat) (x y : Nat) : Except String Bool :=
  if ¬ (x < MATRIX_WIDTH ∧ y < MATRIX_HEIGHT) then
    .error "ERROR - Invalid coordinate set in is_set()"
  else .ok (is_set_raw buffer x y)

/-- `HT16K33MatrixFeatherWing.plot`: coordinate assert, ink clamp to 1,
then the four ink/xor cases.  `self.buffer[x2] &= ~(1 << y)` is bitwise
difference, `Nat.ldiff`.  For the asserted `x < 16`, `_get_row` always
succeeds; the unreachable `none` arm mirrors the error the Python
indexing would raise. -/
def plot (buffer : List Nat) (x y ink : Nat) (xor : Bool) :
    Except String (List Nat) :=
  if ¬ (x < MATRIX_WIDTH ∧ y < MATRIX_HEIGHT) then
    .error "ERROR - Invalid coordinate set in plot()"
  else
    let ink := if ink ≠ 0 ∧ ink ≠ 1 then 1 else ink
    match get_row x with
    | none => .error "ERROR - Invalid coordinate set in plot()"
    | some x2 =>
      if ink = 1 then
        if is_set_raw buffer x y && xor then
          .ok (buffer.set x2 ((buffer.getD x2 0) ^^^ (1 <<< y)))
        else if (buffer.getD x2 0) &&& (1 <<< y) = 0 then
          .ok (buffer.set x2 ((buffer.getD x2 0) ||| (1 <<< y)))
        else .ok buffer
      else
        if !(is_set_raw buffer x y) && xor then
          .ok (buffer.set x2 ((buffer.getD x2 0) ^^^ (1 <<< y)))
        else if (buffer.getD x2 0) &&& (1 <<< y) ≠ 0 then
          .ok (buffer.set x2 (Nat.ldiff (buffer.getD x2 0) (1 <<< y)))
        else .ok buffer

/-- For every asserted column, `_get_row` succeeds with an offset inside
the 32-byte buffer. -/
theorem get_row_facts : ∀ x, x < 16 →
    (get_row x).isSome = true ∧ (get_row x).getD 0 < 32 := by decide

/-- The pixel test reads bit `y` of the buffer byte at the mapped
offset. -/
theorem is_set_raw_testBit (buffer : List Nat) (x y : Nat) :
    is_set_raw buffer x y
      = (buffer.getD ((get_row x).getD 0) 0).testBit y := by
  show (if (buffer.getD ((get_row x).getD 0) 0 >>> y &&& 1) > 0 then true else false)
      = (buffer.getD ((get_row x).getD 0) 0).testBit y
  rw [Nat.and_one_is_mod, Nat.shiftRight_eq_div_pow, Nat.testBit_to_div_mod]
  rcases Nat.mod_two_eq_zero_or_one
      (buffer.getD ((get_row x).getD 0) 0 / 2 ^ y) with h | h <;> rw [h] <;> simp

/-- `get_row` succeeds on every asserted column. -/
theorem get_row_eq_some (x : Nat) (hx : x < 16) :
    get_row x = some ((get_row x).getD 0) := by
  obtain ⟨hsome, -⟩ := get_row_facts x hx
  cases h : get_row x with
  | none => rw [h] at hsome; exact absurd hsome (by simp)
  | some a => rfl

/-- With `xor`, plotting ink 1 on an already-set pixel flips it clear. -/
theorem plot_xor_flip1 (buffer : List Nat) (x y : Nat) (hlen : buffer.length = 32)
    (hx : x < 16) (hy : y < 8) (hset : is_set buffer x y = Except.ok true) :
    Except.bind (plot buffer x y 1 true) (fun b => is_set b x y)
      = Except.ok false := by
  obtain ⟨-, hlt⟩ := get_row_facts x hx
  have hraw : is_set_raw buffer x y = true := by
    unfold is_set at hset
    rw [if_neg (not_not_intro ⟨hx, hy⟩)] at hset
    exact Except.ok.inj hset
  have hgr := get_row_eq_some x hx
  unfold plot
  rw [if_neg (not_not_intro ⟨hx, hy⟩)]
  show Except.bind
      (match get_row x with
       | none => Except.error "ERROR - Invalid coordinate set in plot()"
       | some x2 =>
         if (1 : Nat) = 1 then
           if is_set_raw buffer x y && true then
             Except.ok (buffer.set x2 ((buffer.getD x2 0) ^^^ (1 <<< y)))
           else if (buffer.getD x2 0) &&& (1 <<< y) = 0 then
             Except.ok (buffer.set x2 ((buffer.getD x2 0) ||| (1 <<< y)))
           else Except.ok buffer
         else
           if !(is_set_raw buffer x y) && true then
             Except.ok (buffer.set x2 ((buffer.getD x2 0) ^^^ (1 <<< y)))
           else if (buffer.getD x2 0) &&& (1 <<< y) ≠ 0 then
             Except.ok (buffer.set x2 (Nat.ldiff (buffer.getD x2 0) (1 <<< y)))
           else Except.ok buffer)
      (fun b => is_set b x y) = Except.ok false
  rw [hgr]
  simp only [hraw, Bool.true_and, if_pos rfl, if_true]
  show is_set (buffer.set ((get_row x).getD 0)
      ((buffer.getD ((get_row x).getD 0) 0) ^^^ (1 <<< y))) x y = Except.ok false
  unfold is_set
  rw [if_neg (not_not_intro ⟨hx, hy⟩)]
  rw [is_set_raw_testBit] at hraw
  rw [is_set_raw_testBit, getD_set_ite, if_pos ⟨rfl, by omega⟩,
    Nat.one_shiftLeft, Nat.testBit_xor, hraw, Nat.testBit_two_pow_self]
  rfl

/-- With `xor`, plotting ink 0 on an already-clear pixel flips it set. -/
theorem plot_xor_flip0 (buffer : List Nat) (x y : Nat) (hlen : buffer.length = 32)
    (hx : x < 16) (hy : y < 8) (hset : is_set buffer x y = Except.ok false) :
    Except.bind (plot buffer x y 0 true) (fun b => is_set b x y)
      = Except.ok true := by
  obtain ⟨-, hlt⟩ := get_row_facts x hx
  have hraw : is_set_raw buffer x y = false := by
    unfold is_set at hset
    rw [if_neg (not_not_intro ⟨hx, hy⟩)] at hset
    exact Except.ok.inj hset
  have hgr := get_row_eq_some x hx
  unfold plot
  rw [if_neg (not_not_intro ⟨hx, hy⟩)]
  show Except.bind
      (match get_row x with
       | none => Except.error "ERROR - Invalid coordinate set in plot()"
       | some x2 =>
         if (0 : Nat) = 1 then
           if is_set_raw buffer x y && true then
             Except.ok (buffer.set x2 ((buffer.getD x2 0) ^^^ (1 <<< y)))
           else if (buffer.getD x2 0) &&& (1 <<< y) = 0 then
             Except.ok (buffer.set x2 ((buffer.getD x2 0) ||| (1 <<< y)))
           else Except.ok buffer
         else
           if !(is_set_raw buffer x y) && true then
             Except.ok (buffer.set x2 ((buffer.getD x2 0) ^^^ (1 <<< y)))
           else if (buffer.getD x2 0) &&& (1 <<< y) ≠ 0 then
             Except.ok (buffer.set x2 (Nat.ldiff (buffer.getD x2 0) (1 <<< y)))
           else Except.ok buffer)
      (fun b => is_set b x y) = Except.ok true
  rw [hgr]
  simp only [hraw, Bool.not_false, Bool.true_and, if_neg (by decide : ¬ (0 : Nat) = 1),
    if_true]
  show is_set (buffer.set ((get_row x).getD 0)
      ((buffer.getD ((get_row x).getD 0) 0) ^^^ (1 <<< y))) x y = Except.ok true
  unfold is_set
  rw [if_neg (not_not_intro ⟨hx, hy⟩)]
  rw [is_set_raw_testBit] at hraw
  rw [is_set_raw_testBit, getD_set_ite, if_pos ⟨rfl, by omega⟩,
    Nat.one_shiftLeft, Nat.testBit_xor, hraw, Nat.testBit_two_pow_self]
  rfl

/-! ### Claim C6 -/

/-- Claim C6: for every in-range coordinate, `plot` with `xor` flips a
pixel that already has the requested ink colour instead of re-setting it;
concretely, `plot 5 3 1 xor` on a previously clear pixel sets it and the
same call again clears it. -/
theorem plot_xor_toggle :
    (∀ buffer : List Nat, ∀ x y : Nat, buffer.length = 32 → x < 16 → y < 8 →
        is_set buffer x y = Except.ok true →
        Except.bind (plot buffer x y 1 true) (fun b => is_set b x y)
          = Except.ok false) ∧
    (∀ buffer : List Nat, ∀ x y : Nat, buffer.length = 32 → x < 16 → y < 8 →
        is_set buffer x y = Except.ok false →
        Except.bind (plot buffer x y 0 true) (fun b => is_set b x y)
          = Except.ok true) ∧
    Except.bind (plot (List.replicate 32 0) 5 3 1 true) (fun b => is_set b 5 3)
      = Except.ok true ∧
    Except.bind
        (Except.bind (plot (List.replicate 32 0) 5 3 1 true)
          (fun b => plot b 5 3 1 true))
        (fun b => is_set b 5 3) = Except.ok false :=
  ⟨plot_xor_flip1, plot_xor_flip0, by rfl, by rfl⟩

/-- Witness for C6: the flip parts applied at coordinate (5, 3) on a
buffer whose pixel (5, 3) is set, resp. on the zero buffer. -/
theorem plot_xor_toggle_witness :
    Except.bind (plot ((List.replicate 32 0).set 26 8) 5 3 1 true)
        (fun b => is_set b 5 3) = Except.ok false ∧
    Except.bind (plot (List.replicate 32 0) 5 3 0 true)
        (fun b => is_set b 5 3) = Except.ok true :=
  ⟨plot_xor_toggle.1 ((List.replicate 32 0).set 26 8) 5 3 (by rfl) (by decide)
      (by decide) (by rfl),
   plot_xor_toggle.2.1 (List.replicate 32 0) 5 3 (by rfl) (by decide)
      (by decide) (by rfl)⟩

/-! ### Claim C5 -/

/-- Claim C5: every out-of-range digit or column index is rejected with
the designated assertion error — `set_glyph`, `set_number` and
`set_character` for digits outside `[0, 4)`, `set_icon`,
the matrix `set_character` and `plot` for columns outside `[0, 16)`
(resp. coordinates outside the 16x8 grid).  In this pure embedding an
error result carries no buffer, matching the source where the `assert`
raises before any write, so the display buffer is left unchanged and
never silently clipped. -/
theorem out_of_range_writes_rejected :
    (∀ (buffer : List Nat) (glyph digit : Nat) (dot : Bool), 4 ≤ digit →
        set_glyph buffer glyph digit dot
          = Except.error "ERROR - Invalid digit (0-3) set in set_glyph()") ∧
    (∀ (buffer charset : List Nat) (number digit : Nat) (dot : Bool), 4 ≤ digit →
        seg_set_number buffer charset number digit dot
          = Except.error "ERROR - Invalid digit (0-3) set in set_number()") ∧
    (∀ (buffer charset : List Nat) (ch : String) (digit : Nat) (dot : Bool),
        4 ≤ digit →
        seg_set_character buffer charset ch digit dot
          = Except.error "ERROR - Invalid digit set in set_character()") ∧
    (∀ (buffer : List Nat) (inv : Bool) (glyph : List Nat) (column : Nat),
        0 < glyph.length → glyph.length ≤ 32 → 16 ≤ column →
        set_icon buffer inv glyph column
          = Except.error "ERROR - Invalid column number set in set_icon()") ∧
    (∀ (buffer : List Nat) (inv : Bool) (def_chars : List (List Nat))
        (ascii_value column : Nat), ascii_value < 128 → 16 ≤ column →
        mat_set_character buffer inv def_chars ascii_value column
          = Except.error "ERROR - Invalid column number set in set_icon()") ∧
    (∀ (buffer : List Nat) (x y ink : Nat) (xor : Bool), 16 ≤ x ∨ 8 ≤ y →
        plot buffer x y ink xor
          = Except.error "ERROR - Invalid coordinate set in plot()") := by
  refine ⟨fun buffer glyph digit dot h => ?_, fun buffer charset number digit dot h => ?_,
          fun buffer charset ch digit dot h => ?_, fun buffer inv glyph column h1 h2 h => ?_,
          fun buffer inv def_chars ascii_value column ha h => ?_,
          fun buffer x y ink xor h => ?_⟩
  · unfold set_glyph; rw [if_pos (by omega)]
  · unfold seg_set_number; rw [if_pos (by omega)]
  · unfold seg_set_character; rw [if_pos (by omega)]
  · unfold set_icon
    rw [if_neg (not_not_intro ⟨h1, h2⟩),
      if_pos (by unfold MATRIX_WIDTH; omega)]
  · unfold mat_set_character
    rw [if_neg (not_not_intro ha), if_pos (by unfold MATRIX_WIDTH; omega)]
  · unfold plot
    rw [if_pos (by unfold MATRIX_WIDTH MATRIX_HEIGHT; omega)]

/-- Witness for C5 at digit 4, column 16 and coordinate x = 16. -/
theorem out_of_range_writes_rejected_witness :
    set_glyph (List.replicate 16 0) 0x3F 4 false
      = Except.error "ERROR - Invalid digit (0-3) set in set_glyph()" ∧
    seg_set_number (List.replicate 16 0) SEG_CHARSET 5 4 false
      = Except.error "ERROR - Invalid digit (0-3) set in set_number()" ∧
    seg_set_character (List.replicate 16 0) SEG_CHARSET "7" 4 false
      = Except.error "ERROR - Invalid digit set in set_character()" ∧
    set_icon (List.replicate 32 0) false [0x7C, 0x82, 0x7C] 16
      = Except.error "ERROR - Invalid column number set in set_icon()" ∧
    mat_set_character (List.replicate 32 0) false (List.replicate 32 [0]) 48 16
      = Except.error "ERROR - Invalid column number set in set_icon()" ∧
    plot (List.replicate 32 0) 16 3 1 false
      = Except.error "ERROR - Invalid coordinate set in plot()" :=
  ⟨out_of_range_writes_rejected.1 _ 0x3F 4 false (by decide),
   out_of_range_writes_rejected.2.1 _ SEG_CHARSET 5 4 false (by decide),
   out_of_range_writes_rejected.2.2.1 _ SEG_CHARSET "7" 4 false (by decide),
   out_of_range_writes_rejected.2.2.2.1 _ false [0x7C, 0x82, 0x7C] 16
     (by decide) (by decide) (by decide),
   out_of_range_writes_rejected.2.2.2.2.1 _ false (List.replicate 32 [0]) 48 16
     (by decide) (by decide),
   out_of_range_writes_rejected.2.2.2.2.2 _ 16 3 1 false (Or.inl (by decide))⟩

/-! ### Claim C7 -/

/-- Claim C7, counterexample: `CHARSET` index 0 is the digit-'0' glyph
`[0x7C, 0x82, 0x7C]`, not the space glyph (which sits at index 10).
Writing the unknown code 100 + 32-offset-overflow therefore paints the
digit '0' onto a blank buffer instead of leaving it blank, as the
spec-claimed space substitution would. -/
theorem mat_set_character_clamp_counterexample :
    mat_set_character (List.replicate 32 0) false (List.replicate 32 [0]) 100 0
      = Except.ok ((((List.replicate 32 0).set 16 0x7C).set 18 0x82).set 20 0x7C) ∧
    MATRIX_CHARSET.getD 0 [] = [0x7C, 0x82, 0x7C] ∧
    MATRIX_CHARSET.getD 10 [] = [0x00, 0x00, 0x00] ∧
    ((((List.replicate 32 0).set 16 0x7C).set 18 0x82).set 20 0x7C).getD 16 0
      ≠ (List.replicate 32 0).getD 16 0 :=
  ⟨by rfl, by rfl, by rfl, by decide⟩

/-- Claim C7 amended: for every `ascii_value` in `[32, 128)` whose
charset offset `ascii_value - 32` lies outside the glyph table, the
matrix `set_character` does not fail but clamps the unknown code to
charset index 0, which is the glyph of the digit '0'
(`[0x7C, 0x82, 0x7C]`), not the space glyph; no other substitution
occurs. -/
theorem mat_set_character_clamps_to_index_zero
    (buffer : List Nat) (inv : Bool) (def_chars : List (List Nat))
    (ascii_value column : Nat) (h32 : 32 ≤ ascii_value) (h128 : ascii_value < 128)
    (hbig : MATRIX_CHARSET.length ≤ ascii_value - 32) (hcol : column < 16) :
    mat_set_character buffer inv def_chars ascii_value column
      = set_icon buffer inv (MATRIX_CHARSET.getD 0 []) column ∧
    MATRIX_CHARSET.getD 0 [] = [0x7C, 0x82, 0x7C] ∧
    set_icon buffer inv (MATRIX_CHARSET.getD 0 []) column
      = Except.ok (set_icon_go inv column buffer 0 (MATRIX_CHARSET.getD 0 [])) := by
  refine ⟨?_, by rfl, ?_⟩
  · unfold mat_set_character
    rw [if_neg (not_not_intro h128),
      if_neg (not_not_intro (show column < MATRIX_WIDTH from hcol)),
      if_neg (by omega : ¬ ascii_value < 32)]
    show set_icon buffer inv
        (MATRIX_CHARSET.getD
          (if ascii_value - 32 ≥ MATRIX_CHARSET.length then 0 else ascii_value - 32)
          []) column = _
    rw [if_pos hbig]
  · unfold set_icon
    rw [if_neg (not_not_intro ⟨by decide, by decide⟩),
      if_neg (not_not_intro (show column < MATRIX_WIDTH from hcol))]

/-- Witness for the amended C7 at code 100 on a blank buffer. -/
theorem mat_set_character_clamps_witness :
    mat_set_character (List.replicate 32 0) false (List.replicate 32 [0]) 101 0
      = set_icon (List.replicate 32 0) false (MATRIX_CHARSET.getD 0 []) 0 ∧
    MATRIX_CHARSET.getD 0 [] = [0x7C, 0x82, 0x7C] :=
  have h := mat_set_character_clamps_to_index_zero (List.replicate 32 0) false
    (List.replicate 32 [0]) 101 0 (by decide) (by decide) (by decide) (by decide)
  ⟨h.1, h.2.1⟩

/-! ### Preferences (`set_prefs`, `default_prefs`) -/

/-- A JSON-ish value as stored in the `prefs` dictionary: booleans,
integers, float literals (carried as their literal text — the merge
logic only copies them) and strings. -/
inductive JVal where
  | jbool (b : Bool)
  | jint (n : Int)
  | jflt (f : String)
  | jstr (s : String)
deriving DecidableEq

/-- A Python dict keyed by strings, as a partial map. -/
def Dict : Type := String → Option JVal

/-- `d[k] = v` on a dict. -/
def dset (d : Dict) (k : String) (v : JVal) : Dict :=
  fun q => if q = k then some v else d q

/-- One `if "k" in prefs_data: prefs["k"] = prefs_data["k"]` statement of
`set_prefs`. -/
def merge_key (prefs data : Dict) (k : String) : Dict :=
  match data k with
  | some v => dset prefs k v
  | none => prefs

/-- The first six statements of `set_prefs`: merge `mode`, `colon`,
`flash`, `bright`, `on` and `do_log`, in source order. -/
def merge6 (p d : Dict) : Dict :=
  merge_key (merge_key (merge_key (merge_key (merge_key
    (merge_key p d "mode") d "colon") d "flash") d "bright") d "on") d "do_log"

/-- `set_prefs` from `clock_segment_esp32.py` (1.4.0).  The function
mutates the global `prefs` and, in one branch, the caller's `prefs_data`
(`prefs_data["show_temp"] = False` when `lat` is missing), so the model
returns both dicts.  After the six plain merges: when `show_temp` is
present it is copied, then `lat` is copied if present (else the *input*
dict's `show_temp` is set to `False`), then `lng` is copied if present
(else `prefs["show_temp"]` is set to `False`); finally `show_date` is
merged. -/
def set_prefs (prefs0 prefs_data : Dict) : Dict × Dict :=
  let prefs := merge6 prefs0 prefs_data
  let pd :=
    match prefs_data "show_temp" with
    | some v =>
      let prefs := dset prefs "show_temp" v
      let pd1 :=
        match prefs_data "lat" with
        | some w => (dset prefs "lat" w, prefs_data)
        | none => (prefs, dset prefs_data "show_temp" (JVal.jbool false))
      let prefs := pd1.1
      let data := pd1.2
      let prefs :=
        match data "lng" with
        | some u => dset prefs "lng" u
        | none => dset prefs "show_temp" (JVal.jbool false)
      (prefs, data)
    | none => (prefs, prefs_data)
  let prefs := pd.1
  let data := pd.2
  match data "show_date" with
  | some sd => (dset prefs "show_date" sd, data)
  | none => (prefs, data)

/-- `default_prefs`: the default preferences dictionary, keys written in
source order. -/
def default_prefs : Dict :=
  dset (dset (dset (dset (dset (dset (dset (dset (dset (dset (dset (dset
    (fun _ => none)
    "mode" (JVal.jbool true))
    "colon" (JVal.jbool true))
    "flash" (JVal.jbool true))
    "bright" (JVal.jint 10))
    "bst" (JVal.jbool true))
    "on" (JVal.jbool true))
    "url" (JVal.jstr "@AGENT"))
    "do_log" (JVal.jbool true))
    "show_date" (JVal.jbool true))
    "show_temp" (JVal.jbool false))
    "lat" (JVal.jflt "0.0"))
    "lng" (JVal.jflt "0.0")

theorem dset_same (d : Dict) (k : String) (v : JVal) : dset d k v k = some v := by
  unfold dset; rw [if_pos rfl]

theorem dset_other (d : Dict) (k q : String) (v : JVal) (h : q ≠ k) :
    dset d k v q = d q := by
  unfold dset; rw [if_neg h]

theorem merge_key_other (p d : Dict) (k q : String) (h : q ≠ k) :
    merge_key p d k q = p q := by
  unfold merge_key
  cases d k with
  | some v => exact dset_other _ _ _ _ h
  | none => rfl

theorem merge_key_same (p d : Dict) (k : String) :
    merge_key p d k k
      = (match d k with | some v => some v | none => p k) := by
  unfold merge_key
  cases d k with
  | some v => exact dset_same _ _ _
  | none => rfl

/-- Outside the `show_temp` block and the final `show_date` merge,
`set_prefs` coincides with the six plain key merges. -/
theorem set_prefs_eq_merge6 (p d : Dict) (q : String)
    (h1 : q ≠ "show_temp") (h2 : q ≠ "lat") (h3 : q ≠ "lng") (h4 : q ≠ "show_date") :
    (set_prefs p d).1 q = merge6 p d q := by
  unfold set_prefs
  dsimp only
  cases hst : d "show_temp" with
  | none =>
    dsimp only
    cases hsd : d "show_date" with
    | some sd => dsimp only; exact dset_other _ _ _ _ h4
    | none => rfl
  | some v =>
    dsimp only
    cases hlat : d "lat" with
    | some w =>
      dsimp only
      cases hlng : d "lng" with
      | some u =>
        dsimp only
        cases hsd : d "show_date" with
        | some sd =>
          dsimp only
          rw [dset_other _ _ _ _ h4, dset_other _ _ _ _ h3, dset_other _ _ _ _ h2,
            dset_other _ _ _ _ h1]
        | none =>
          dsimp only
          rw [dset_other _ _ _ _ h3, dset_other _ _ _ _ h2, dset_other _ _ _ _ h1]
      | none =>
        dsimp only
        cases hsd : d "show_date" with
        | some sd =>
          dsimp only
          rw [dset_other _ _ _ _ h4, dset_other _ _ _ _ h1, dset_other _ _ _ _ h2,
            dset_other _ _ _ _ h1]
        | none =>
          dsimp only
          rw [dset_other _ _ _ _ h1, dset_other _ _ _ _ h2, dset_other _ _ _ _ h1]
    | none =>
      dsimp only
      rw [show (dset d "show_temp" (JVal.jbool false)) "lng" = d "lng" from
        dset_other _ _ _ _ (by decide)]
      rw [show (dset d "show_temp" (JVal.jbool false)) "show_date" = d "show_date" from
        dset_other _ _ _ _ (by decide)]
      cases hlng : d "lng" with
      | some u =>
        dsimp only
        cases hsd : d "show_date" with
        | some sd =>
          dsimp only
          rw [dset_other _ _ _ _ h4, dset_other _ _ _ _ h3, dset_other _ _ _ _ h1]
        | none =>
          dsimp only
          rw [dset_other _ _ _ _ h3, dset_other _ _ _ _ h1]
      | none =>
        dsimp only
        cases hsd : d "show_date" with
        | some sd =>
          dsimp only
          rw [dset_other _ _ _ _ h4, dset_other _ _ _ _ h1, dset_other _ _ _ _ h1]
        | none =>
          dsimp only
          rw [dset_other _ _ _ _ h1, dset_other _ _ _ _ h1]

theorem merge6_other (p d : Dict) (q : String) (h1 : q ≠ "mode") (h2 : q ≠ "colon")
    (h3 : q ≠ "flash") (h4 : q ≠ "bright") (h5 : q ≠ "on") (h6 : q ≠ "do_log") :
    merge6 p d q = p q := by
  unfold merge6
  rw [merge_key_other _ _ _ _ h6, merge_key_other _ _ _ _ h5, merge_key_other _ _ _ _ h4,
    merge_key_other _ _ _ _ h3, merge_key_other _ _ _ _ h2, merge_key_other _ _ _ _ h1]

theorem merge6_simple (p d : Dict) (k : String)
    (hk : k = "mode" ∨ k = "colon" ∨ k = "flash" ∨ k = "bright" ∨ k = "on" ∨ k = "do_log") :
    merge6 p d k = (match d k with | some v => some v | none => p k) := by
  unfold merge6
  rcases hk with rfl | rfl | rfl | rfl | rfl | rfl
  · rw [merge_key_other _ _ _ _ (by decide), merge_key_other _ _ _ _ (by decide),
      merge_key_other _ _ _ _ (by decide), merge_key_other _ _ _ _ (by decide),
      merge_key_other _ _ _ _ (by decide), merge_key_same]
  · rw [merge_key_other _ _ _ _ (by decide), merge_key_other _ _ _ _ (by decide),
      merge_key_other _ _ _ _ (by decide), merge_key_other _ _ _ _ (by decide),
      merge_key_same, merge_key_other _ _ _ _ (by decide)]
  · rw [merge_key_other _ _ _ _ (by decide), merge_key_other _ _ _ _ (by decide),
      merge_key_other _ _ _ _ (by decide), merge_key_same,
      merge_key_other _ _ _ _ (by decide), merge_key_other _ _ _ _ (by decide)]
  · rw [merge_key_other _ _ _ _ (by decide), merge_key_other _ _ _ _ (by decide),
      merge_key_same, merge_key_other _ _ _ _ (by decide),
      merge_key_other _ _ _ _ (by decide), merge_key_other _ _ _ _ (by decide)]
  · rw [merge_key_other _ _ _ _ (by decide), merge_key_same,
      merge_key_other _ _ _ _ (by decide), merge_key_other _ _ _ _ (by decide),
      merge_key_other _ _ _ _ (by decide), merge_key_other _ _ _ _ (by decide)]
  · rw [merge_key_same, merge_key_other _ _ _ _ (by decide),
      merge_key_other _ _ _ _ (by decide), merge_key_other _ _ _ _ (by decide),
      merge_key_other _ _ _ _ (by decide), merge_key_other _ _ _ _ (by decide)]

theorem set_prefs_show_temp (p d : Dict) :
    (set_prefs p d).1 "show_temp"
      = (match d "show_temp", d "lng" with
         | some v, some _ => some v
         | some _, none => some (JVal.jbool false)
         | none, _ => p "show_temp") := by
  unfold set_prefs
  dsimp only
  cases hst : d "show_temp" with
  | none =>
    dsimp only
    cases hsd : d "show_date" with
    | some sd =>
      dsimp only
      rw [dset_other _ _ _ _ (by decide)]
      exact merge6_other p d _ (by decide) (by decide) (by decide) (by decide)
        (by decide) (by decide)
    | none =>
      exact merge6_other p d _ (by decide) (by decide) (by decide) (by decide)
        (by decide) (by decide)
  | some v =>
    dsimp only
    cases hlat : d "lat" with
    | some w =>
      dsimp only
      cases hlng : d "lng" with
      | some u =>
        dsimp only
        cases hsd : d "show_date" with
        | some sd =>
          dsimp only
          rw [dset_other _ _ _ _ (by decide), dset_other _ _ _ _ (by decide),
            dset_other _ _ _ _ (by decide), dset_same]
        | none =>
          dsimp only
          rw [dset_other _ _ _ _ (by decide), dset_other _ _ _ _ (by decide), dset_same]
      | none =>
        dsimp only
        cases hsd : d "show_date" with
        | some sd =>
          dsimp only
          rw [dset_other _ _ _ _ (by decide), dset_same]
        | none =>
          dsimp only
          rw [dset_same]
    | none =>
      dsimp only
      rw [show (dset d "show_temp" (JVal.jbool false)) "lng" = d "lng" from
        dset_other _ _ _ _ (by decide)]
      rw [show (dset d "show_temp" (JVal.jbool false)) "show_date" = d "show_date" from
        dset_other _ _ _ _ (by decide)]
      cases hlng : d "lng" with
      | some u =>
        dsimp only
        cases hsd : d "show_date" with
        | some sd =>
          dsimp only
          rw [dset_other _ _ _ _ (by decide), dset_other _ _ _ _ (by decide), dset_same]
        | none =>
          dsimp only
          rw [dset_other _ _ _ _ (by decide), dset_same]
      | none =>
        dsimp only
        cases hsd : d "show_date" with
        | some sd =>
          dsimp only
          rw [dset_other _ _ _ _ (by decide), dset_same]
        | none =>
          dsimp only
          rw [dset_same]

theorem set_prefs_lat (p d : Dict) :
    (set_prefs p d).1 "lat"
      = (match d "show_temp", d "lat" with
         | some _, some w => some w
         | _, _ => p "lat") := by
  unfold set_prefs
  dsimp only
  cases hst : d "show_temp" with
  | none =>
    dsimp only
    cases hsd : d "show_date" with
    | some sd =>
      dsimp only
      rw [dset_other _ _ _ _ (by decide)]
      exact merge6_other p d _ (by decide) (by decide) (by decide) (by decide)
        (by decide) (by decide)
    | none =>
      exact merge6_other p d _ (by decide) (by decide) (by decide) (by decide)
        (by decide) (by decide)
  | some v =>
    dsimp only
    cases hlat : d "lat" with
    | some w =>
      dsimp only
      cases hlng : d "lng" with
      | some u =>
        dsimp only
        cases hsd : d "show_date" with
        | some sd =>
          dsimp only
          rw [dset_other _ _ _ _ (by decide), dset_other _ _ _ _ (by decide), dset_same]
        | none =>
          dsimp only
          rw [dset_other _ _ _ _ (by decide), dset_same]
      | none =>
        dsimp only
        cases hsd : d "show_date" with
        | some sd =>
          dsimp only
          rw [dset_other _ _ _ _ (by decide), dset_other _ _ _ _ (by decide), dset_same]
        | none =>
          dsimp only
          rw [dset_other _ _ _ _ (by decide), dset_same]
    | none =>
      dsimp only
      rw [show (dset d "show_temp" (JVal.jbool false)) "lng" = d "lng" from
        dset_other _ _ _ _ (by decide)]
      rw [show (dset d "show_temp" (JVal.jbool false)) "show_date" = d "show_date" from
        dset_other _ _ _ _ (by decide)]
      cases hlng : d "lng" with
      | some u =>
        dsimp only
        cases hsd : d "show_date" with
        | some sd =>
          dsimp only
          rw [dset_other _ _ _ _ (by decide), dset_other _ _ _ _ (by decide),
            dset_other _ _ _ _ (by decide)]
          exact merge6_other p d _ (by decide) (by decide) (by decide) (by decide)
            (by decide) (by decide)
        | none =>
          dsimp only
          rw [dset_other _ _ _ _ (by decide), dset_other _ _ _ _ (by decide)]
          exact merge6_other p d _ (by decide) (by decide) (by decide) (by decide)
            (by decide) (by decide)
      | none =>
        dsimp only
        cases hsd : d "show_date" with
        | some sd =>
          dsimp only
          rw [dset_other _ _ _ _ (by decide), dset_other _ _ _ _ (by decide),
            dset_other _ _ _ _ (by decide)]
          exact merge6_other p d _ (by decide) (by decide) (by decide) (by decide)
            (by decide) (by decide)
        | none =>
          dsimp only
          rw [dset_other _ _ _ _ (by decide), dset_other _ _ _ _ (by decide)]
          exact merge6_other p d _ (by decide) (by decide) (by decide) (by decide)
            (by decide) (by decide)

theorem set_prefs_lng (p d : Dict) :
    (set_prefs p d).1 "lng"
      = (match d "show_temp", d "lng" with
         | some _, some u => some u
         | _, _ => p "lng") := by
  unfold set_prefs
  dsimp only
  cases hst : d "show_temp" with
  | none =>
    dsimp only
    cases hsd : d "show_date" with
    | some sd =>
      dsimp only
      rw [dset_other _ _ _ _ (by decide)]
      exact merge6_other p d _ (by decide) (by decide) (by decide) (by decide)
        (by decide) (by decide)
    | none =>
      exact merge6_other p d _ (by decide) (by decide) (by decide) (by decide)
        (by decide) (by decide)
  | some v =>
    dsimp only
    cases hlat : d "lat" with
    | some w =>
      dsimp only
      cases hlng : d "lng" with
      | some u =>
        dsimp only
        cases hsd : d "show_date" with
        | some sd =>
          dsimp only
          rw [dset_other _ _ _ _ (by decide), dset_same]
        | none =>
          dsimp only
          rw [dset_same]
      | none =>
        dsimp only
        cases hsd : d "show_date" with
        | some sd =>
          dsimp only
          rw [dset_other _ _ _ _ (by decide), dset_other _ _ _ _ (by decide),
            dset_other _ _ _ _ (by decide), dset_other _ _ _ _ (by decide)]
          exact merge6_other p d _ (by decide) (by decide) (by decide) (by decide)
            (by decide) (by decide)
        | none =>
          dsimp only
          rw [dset_other _ _ _ _ (by decide), dset_other _ _ _ _ (by decide),
            dset_other _ _ _ _ (by decide)]
          exact merge6_other p d _ (by decide) (by decide) (by decide) (by decide)
            (by decide) (by decide)
    | none =>
      dsimp only
      rw [show (dset d "show_temp" (JVal.jbool false)) "lng" = d "lng" from
        dset_other _ _ _ _ (by decide)]
      rw [show (dset d "show_temp" (JVal.jbool false)) "show_date" = d "show_date" from
        dset_other _ _ _ _ (by decide)]
      cases hlng : d "lng" with
      | some u =>
        dsimp only
        cases hsd : d "show_date" with
        | some sd =>
          dsimp only
          rw [dset_other _ _ _ _ (by decide), dset_same]
        | none =>
          dsimp only
          rw [dset_same]
      | none =>
        dsimp only
        cases hsd : d "show_date" with
        | some sd =>
          dsimp only
          rw [dset_other _ _ _ _ (by decide), dset_other _ _ _ _ (by decide),
            dset_other _ _ _ _ (by decide)]
          exact merge6_other p d _ (by decide) (by decide) (by decide) (by decide)
            (by decide) (by decide)
        | none =>
          dsimp only
          rw [dset_other _ _ _ _ (by decide), dset_other _ _ _ _ (by decide)]
          exact merge6_other p d _ (by decide) (by decide) (by decide) (by decide)
            (by decide) (by decide)

theorem set_prefs_show_date (p d : Dict) :
    (set_prefs p d).1 "show_date"
      = (match d "show_date" with
         | some sd => some sd
         | none => p "show_date") := by
  unfold set_prefs
  dsimp only
  cases hst : d "show_temp" with
  | none =>
    dsimp only
    cases hsd : d "show_date" with
    | some sd =>
      dsimp only
      rw [dset_same]
    | none =>
      exact merge6_other p d _ (by decide) (by decide) (by decide) (by decide)
        (by decide) (by decide)
  | some v =>
    dsimp only
    cases hlat : d "lat" with
    | some w =>
      dsimp only
      cases hlng : d "lng" with
      | some u =>
        dsimp only
        cases hsd : d "show_date" with
        | some sd =>
          dsimp only
          rw [dset_same]
        | none =>
          dsimp only
          rw [dset_other _ _ _ _ (by decide), dset_other _ _ _ _ (by decide),
            dset_other _ _ _ _ (by decide)]
          exact merge6_other p d _ (by decide) (by decide) (by decide) (by decide)
            (by decide) (by decide)
      | none =>
        dsimp only
        cases hsd : d "show_date" with
        | some sd =>
          dsimp only
          rw [dset_same]
        | none =>
          dsimp only
          rw [dset_other _ _ _ _ (by decide), dset_other _ _ _ _ (by decide),
            dset_other _ _ _ _ (by decide)]
          exact merge6_other p d _ (by decide) (by decide) (by decide) (by decide)
            (by decide) (by decide)
    | none =>
      dsimp only
      rw [show (dset d "show_temp" (JVal.jbool false)) "lng" = d "lng" from
        dset_other _ _ _ _ (by decide)]
      rw [show (dset d "show_temp" (JVal.jbool false)) "show_date" = d "show_date" from
        dset_other _ _ _ _ (by decide)]
      cases hlng : d "lng" with
      | some u =>
        dsimp only
        cases hsd : d "show_date" with
        | some sd =>
          dsimp only
          rw [dset_same]
        | none =>
          dsimp only
          rw [dset_other _ _ _ _ (by decide), dset_other _ _ _ _ (by decide)]
          exact merge6_other p d _ (by decide) (by decide) (by decide) (by decide)
            (by decide) (by decide)
      | none =>
        dsimp only
        cases hsd : d "show_date" with
        | some sd =>
          dsimp only
          rw [dset_same]
        | none =>
          dsimp only
          rw [dset_other _ _ _ _ (by decide), dset_other _ _ _ _ (by decide)]
          exact merge6_other p d _ (by decide) (by decide) (by decide) (by decide)
            (by decide) (by decide)

/-- A concrete prefs-file object carrying `bst` and `lat` but no
`show_temp`. -/
def C8_DATA : Dict := fun k =>
  if k = "bst" then some (JVal.jbool false)
  else if k = "lat" then some (JVal.jflt "51.5")
  else none

/-- A concrete prefs-file object carrying `show_temp` and `lat` but no
`lng`. -/
def C8_DATA2 : Dict := fun k =>
  if k = "show_temp" then some (JVal.jbool true)
  else if k = "lat" then some (JVal.jflt "51.5")
  else none

/-! ### Claim C8 -/

/-- Claim C8, counterexample: `set_prefs` does not treat `bst` as a
recognized key — an input carrying `bst = false` leaves the default
`bst = true` untouched; and a present `lat` is not copied when
`show_temp` is absent; moreover a present `show_temp` is forced to
`false` when `lng` is missing.  Each contradicts the claim that every
present recognized key updates its entry. -/
theorem set_prefs_claim_counterexample :
    (set_prefs default_prefs C8_DATA).1 "bst" = some (JVal.jbool true) ∧
    C8_DATA "bst" = some (JVal.jbool false) ∧
    some (JVal.jbool true) ≠ some (JVal.jbool false) ∧
    (set_prefs default_prefs C8_DATA).1 "lat" = some (JVal.jflt "0.0") ∧
    C8_DATA "lat" = some (JVal.jflt "51.5") ∧
    (set_prefs default_prefs C8_DATA2).1 "show_temp" = some (JVal.jbool false) ∧
    C8_DATA2 "show_temp" = some (JVal.jbool true) :=
  ⟨by rfl, by rfl, by decide, by rfl, by rfl, by rfl, by rfl⟩

/-- Claim C8 amended: `set_prefs` applies merge-on-load semantics for the
keys it actually handles — `mode`, `colon`, `flash`, `bright`, `on`,
`do_log` and `show_date` update exactly when present; `show_temp`
updates when present but is forced to `false` when `lng` is missing;
`lat` and `lng` update only when `show_temp` is also present; `bst` is
never touched by `set_prefs` (it keeps its prior/default value);
unknown keys are ignored and every key missing from the input keeps its
prior value — the prefs state is never fully replaced. -/
theorem set_prefs_merge_semantics (p d : Dict) :
    ((set_prefs p d).1 "mode"
      = (match d "mode" with | some v => some v | none => p "mode")) ∧
    ((set_prefs p d).1 "colon"
      = (match d "colon" with | some v => some v | none => p "colon")) ∧
    ((set_prefs p d).1 "flash"
      = (match d "flash" with | some v => some v | none => p "flash")) ∧
    ((set_prefs p d).1 "bright"
      = (match d "bright" with | some v => some v | none => p "bright")) ∧
    ((set_prefs p d).1 "on"
      = (match d "on" with | some v => some v | none => p "on")) ∧
    ((set_prefs p d).1 "do_log"
      = (match d "do_log" with | some v => some v | none => p "do_log")) ∧
    ((set_prefs p d).1 "show_date"
      = (match d "show_date" with | some v => some v | none => p "show_date")) ∧
    ((set_prefs p d).1 "show_temp"
      = (match d "show_temp", d "lng" with
         | some v, some _ => some v
         | some _, none => some (JVal.jbool false)
         | none, _ => p "show_temp")) ∧
    ((set_prefs p d).1 "lat"
      = (match d "show_temp", d "lat" with
         | some _, some w => some w
         | _, _ => p "lat")) ∧
    ((set_prefs p d).1 "lng"
      = (match d "show_temp", d "lng" with
         | some _, some u => some u
         | _, _ => p "lng")) ∧
    ((set_prefs p d).1 "bst" = p "bst") ∧
    (∀ q : String,
      q ∉ (["mode", "colon", "flash", "bright", "on", "do_log",
            "show_temp", "lat", "lng", "show_date"] : List String) →
      (set_prefs p d).1 q = p q) := by
  have hsimple : ∀ k : String,
      k = "mode" ∨ k = "colon" ∨ k = "flash" ∨ k = "bright" ∨ k = "on" ∨ k = "do_log" →
      (set_prefs p d).1 k
        = (match d k with | some v => some v | none => p k) := by
    intro k hk
    rw [set_prefs_eq_merge6 p d k
        (by rcases hk with rfl|rfl|rfl|rfl|rfl|rfl <;> decide)
        (by rcases hk with rfl|rfl|rfl|rfl|rfl|rfl <;> decide)
        (by rcases hk with rfl|rfl|rfl|rfl|rfl|rfl <;> decide)
        (by rcases hk with rfl|rfl|rfl|rfl|rfl|rfl <;> decide)]
    exact merge6_simple p d k hk
  have huntouched : ∀ q : String,
      q ∉ (["mode", "colon", "flash", "bright", "on", "do_log",
            "show_temp", "lat", "lng", "show_date"] : List String) →
      (set_prefs p d).1 q = p q := by
    intro q hq
    simp only [List.mem_cons, List.not_mem_nil, or_false, not_or] at hq
    obtain ⟨n1, n2, n3, n4, n5, n6, n7, n8, n9, n10⟩ := hq
    rw [set_prefs_eq_merge6 p d q n7 n8 n9 n10]
    exact merge6_other p d q n1 n2 n3 n4 n5 n6
  exact ⟨hsimple "mode" (by decide), hsimple "colon" (by decide),
    hsimple "flash" (by decide), hsimple "bright" (by decide),
    hsimple "on" (by decide), hsimple "do_log" (by decide),
    set_prefs_show_date p d, set_prefs_show_temp p d,
    set_prefs_lat p d, set_prefs_lng p d,
    huntouched "bst" (by decide), huntouched⟩

/-- Witness for the amended C8 at the concrete defaults and input
`C8_DATA`. -/
theorem set_prefs_merge_semantics_witness :
    ((set_prefs default_prefs C8_DATA).1 "mode"
      = (match C8_DATA "mode" with
         | some v => some v
         | none => default_prefs "mode")) ∧
    ((set_prefs default_prefs C8_DATA).1 "bst" = default_prefs "bst") ∧
    (set_prefs default_prefs C8_DATA).1 "url" = default_prefs "url" :=
  have h := set_prefs_merge_semantics default_prefs C8_DATA
  ⟨h.1, h.2.2.2.2.2.2.2.2.2.2.1,
   h.2.2.2.2.2.2.2.2.2.2.2 "url" (by decide)⟩

/-! ### Claim C1 -/

set_option maxRecDepth 8000 in
/-- Claim C1: for every `v` with `0 ≤ v ≤ 99`, reversing the BCD packing
recovers `v`, i.e. `(bcd v >>> 4) * 10 + (bcd v &&& 0xF) = v`; and for
every digit `d ≤ 9`, `bcd d = (0 <<< 4) ||| d`. -/
theorem bcd_roundtrip_and_digits :
    (∀ v : Nat, v ≤ 99 → (bcd v >>> 4) * 10 + (bcd v &&& 0xF) = v) ∧
    (∀ d : Nat, d ≤ 9 → bcd d = (0 <<< 4) ||| d) := by
  decide

/-- Witness for C1 at `v = 37` and `d = 5`. -/
theorem bcd_roundtrip_and_digits_witness :
    (bcd 37 >>> 4) * 10 + (bcd 37 &&& 0xF) = 37 ∧ bcd 5 = (0 <<< 4) ||| 5 :=
  ⟨bcd_roundtrip_and_digits.1 37 (by decide), bcd_roundtrip_and_digits.2 5 (by decide)⟩

/-! ### Claim C10 -/

/-- Claim C10: for every brightness value outside `[0, 15]`,
`set_brightness` silently substitutes the maximum: it behaves identically
to `set_brightness 15`, storing 15 and issuing command byte
`0xE0 ||| 15`. -/
theorem set_brightness_clamps_out_of_range (b : Int) (h : b < 0 ∨ b > 15) :
    set_brightness b = set_brightness 15 ∧
    set_brightness b = (15, HT16K33_GENERIC_CMD_BRIGHTNESS ||| 15) := by
  unfold set_brightness
  rw [if_pos h, if_neg (by omega : ¬ ((15 : Int) < 0 ∨ (15 : Int) > 15))]
  exact ⟨rfl, rfl⟩

/-- Witness for C10 at `b = 99`. -/
theorem set_brightness_clamps_witness :
    set_brightness 99 = set_brightness 15 ∧
    set_brightness 99 = (15, HT16K33_GENERIC_CMD_BRIGHTNESS ||| 15) :=
  set_brightness_clamps_out_of_range 99 (Or.inr (by decide))

/-! ### Claim C9 -/

/-- Claim C9, counterexample: the claim locates the old/new difference in
the early-return month-range comparison (`n[2] < 10` in the old code
versus `n[1] < 10` in the new).  On 15 May 2024 the actual old
`bst_check` returns `true` (its early return reads the month field
`now[1] = 5`, exactly as the later versions do), while the
spec-described old check returns `false` (it would read the day field
`now[2] = 15`).  So the old code does not compare `n[2] < 10`. -/
theorem bst_check_old_spec_mismatch :
    bst_check_old 2024 5 15 0 = true ∧ bst_check_old_spec 2024 5 15 = false ∧
    bst_check 2024 5 15 = true := by
  decide

/-- Claim C9 amended: the old and new `bst_check` differ exactly in which
tuple index the in-loop day comparison uses — the old code reads `now[3]`
(the hour field) where the later versions read `now[2]` (the day of
month); the early-return month-range comparison reads `now[1]` in both.
Formally, the old check coincides with the new one applied with the
`now[3]` field in the day slot, for all inputs (in particular the old
check ignores `now[2]` entirely). -/
theorem bst_check_old_eq_new_on_hour_field (a b c d : Int) :
    bst_check_old a b c d = bst_check a b d := rfl
